import Mathlib

/-!
Verification development for the multi-agent wellness service: a shallow
embedding of its intent classification, safety gating, dispatch, response
synthesis and bounded conversation memory, together with theorems settling
the specification claims about those components.

Strings are modelled through their character lists so that every operation
is structurally recursive and kernel-evaluable.  Python `str.lower`,
slicing, substring tests and `"sep".join` are modelled by `strLower`,
`strTake` and `pySliceLast`, `containsSubstr`, and `pyJoin` respectively.
Floats (agent confidences) are modelled as rationals, exact for every
decimal literal in the source.
-/

/-- Model of membership test used by Python `needle.isPrefix-like` scans:
`charsPrefixOf n h` says the char list `n` starts `h`. -/
def charsPrefixOf : List Char → List Char → Bool
  | [], _ => true
  | _ :: _, [] => false
  | a :: as, b :: bs => a == b && charsPrefixOf as bs

/-- `charsContain needle hay` : `needle` occurs as a contiguous run in `hay`. -/
def charsContain (needle : List Char) : List Char → Bool
  | [] => needle.isEmpty
  | c :: t => charsPrefixOf needle (c :: t) || charsContain needle t

/-- Model of Python `needle in hay` substring test. -/
def containsSubstr (hay needle : String) : Bool :=
  charsContain needle.data hay.data

/-- Model of Python `s.lower()` (per code point). -/
def strLower (s : String) : String := ⟨s.data.map Char.toLower⟩

/-- Model of Python `s[:n]` for a string and `n ≥ 0` (per code point). -/
def strTake (n : Nat) (s : String) : String := ⟨s.data.take n⟩

/-- Model of the Python slice `l[-n:]` for `n ≥ 0`: for `n = 0` this is the
whole list (since `-0 == 0`), otherwise the last `n` elements. -/
def pySliceLast (n : Nat) (l : List α) : List α :=
  if n = 0 then l else l.drop (l.length - n)

/-- Model of Python `sep.join(parts)`. -/
def pyJoin (sep : String) : List String → String
  | [] => ""
  | [x] => x
  | x :: y :: t => x ++ sep ++ pyJoin sep (y :: t)

/-- The last `n` elements of a list (the spec's notion of keeping the newest
`n` entries). -/
def takeLastL (n : Nat) (l : List α) : List α := l.drop (l.length - n)

/-- `IntentType` from `models/schemas.py`: the closed intent enumeration, in
declaration order. -/
inductive IntentType where
  | symptom
  | lifestyle
  | diet
  | fitness
  | general
deriving DecidableEq, Repr

/-- `.value` of each enum member. -/
def intentValue : IntentType → String
  | .symptom => "symptom"
  | .lifestyle => "lifestyle"
  | .diet => "diet"
  | .fitness => "fitness"
  | .general => "general"

/-- `WellnessOrchestrator.intent_keywords` from `orchestrator.py` (the
`general` intent has no keyword list and its score stays 0). -/
def intent_keywords_of : IntentType → List String
  | .symptom =>
      ["symptom", "ache", "pain", "tired", "fatigue", "sick",
       "illness", "feel", "hurt", "sore", "dizzy", "nausea",
       "cough", "fever", "headache"]
  | .lifestyle =>
      ["sleep", "stress", "anxiety", "routine", "habit", "relax",
       "tired", "fatigue", "meditation", "work-life", "balance",
       "energy", "mood", "mental"]
  | .diet =>
      ["food", "eat", "diet", "nutrition", "meal", "cook",
       "recipe", "calorie", "protein", "healthy", "weight",
       "appetite", "digest", "stomach"]
  | .fitness =>
      ["exercise", "workout", "gym", "run", "walk", "strength",
       "cardio", "fit", "activity", "sport", "train", "muscle",
       "flexibility", "endurance"]
  | .general => []

/-- The score an intent gets in `identify_intent`: the number of its
keywords present as substrings of the lowercased query (each keyword counted
at most once, as in the source's per-keyword membership test). -/
def intentScore (query_lower : String) (i : IntentType) : Nat :=
  (intent_keywords_of i).countP (fun kw => containsSubstr query_lower kw)

/-- Model of Python `max(items, key=score)` over the score dict's items:
keeps the current maximum and replaces it only on a strictly greater score,
so the first-iterated key wins ties. -/
def maxIntentAux (best : IntentType × Nat) : List (IntentType × Nat) → IntentType × Nat
  | [] => best
  | p :: rest => maxIntentAux (if best.2 < p.2 then p else best) rest

/-- `WellnessOrchestrator.identify_intent`: score every intent (the score
dict is initialised to 0 for all five members, iterated in declaration
order), take the first maximal intent, and fall back to `general` when the
maximal score is 0. -/
def identify_intent (query : String) : IntentType :=
  let query_lower := strLower query
  let best := maxIntentAux (IntentType.symptom, intentScore query_lower IntentType.symptom)
    [(IntentType.lifestyle, intentScore query_lower IntentType.lifestyle),
     (IntentType.diet, intentScore query_lower IntentType.diet),
     (IntentType.fitness, intentScore query_lower IntentType.fitness),
     (IntentType.general, intentScore query_lower IntentType.general)]
  if best.2 = 0 then IntentType.general else best.1

/-- `WellnessOrchestrator.filter_intent_safety`: only for `symptom` intent,
scan a fixed critical-symptom list in the lowercased query; on a match
return `(False, fixed emergency message)`, else `(True, "")`. -/
def critical_symptoms : List String :=
  ["chest pain", "difficulty breathing", "severe bleeding",
   "loss of consciousness", "seizure", "suicidal", "harm"]

/-- The pair returned by `filter_intent_safety` : `(is_safe, warning)`. -/
def filter_intent_safety (intent : IntentType) (query : String) : Bool × String :=
  if intent = IntentType.symptom then
    if critical_symptoms.any (fun s => containsSubstr (strLower query) s) then
      (false, "CRITICAL: Seek emergency medical care immediately (911)")
    else (true, "")
  else (true, "")

example : identify_intent "I feel tired" = IntentType.symptom := by decide
example : identify_intent "tell me about vacations" = IntentType.general := by decide
example : identify_intent "food" = IntentType.diet := by decide
example : (filter_intent_safety IntentType.symptom "I have chest pain").1 = false := by decide
example : (filter_intent_safety IntentType.fitness "I have chest pain").1 = true := by decide

/-- One `{"role": ..., "content": ...}` entry of a conversation memory. -/
structure ChatMessage where
  role : String
  content : String
deriving DecidableEq, Repr

/-- `models/schemas.py` `ConversationMemory`: per-user rolling message log
with a cap (`context` is the free-form dict, modelled as an insertion-ordered
association list). -/
structure ConversationMemory where
  user_id : String
  messages : List ChatMessage := []
  context : List (String × String) := []
  max_messages : Nat := 20
deriving DecidableEq, Repr

/-- `ConversationMemory.add_message`: append, then, if over the cap, assign
`messages[-max_messages:]` (note the Python slice: for `max_messages = 0`
that slice is the whole list). -/
def ConversationMemory.add_message (m : ConversationMemory) (role content : String) :
    ConversationMemory :=
  let msgs := m.messages ++ [{ role := role, content := content }]
  if m.max_messages < msgs.length then
    { m with messages := pySliceLast m.max_messages msgs }
  else
    { m with messages := msgs }

/-- `ConversationMemory.get_context`: the last five messages formatted as
`"role: content"` lines joined by newlines. -/
def ConversationMemory.get_context (m : ConversationMemory) : String :=
  pyJoin "\n" ((pySliceLast 5 m.messages).map (fun msg => msg.role ++ ": " ++ msg.content))

/-- `models/schemas.py` `AgentResponse` (confidence is a float defaulting to
0.8, modelled as a rational). -/
structure AgentResponse where
  agent_name : String
  content : String
  confidence : Rat := 0.8
  recommendations : List String := []
deriving DecidableEq, Repr

/-- `models/schemas.py` `WellnessQuery` (the user profile is opaque to the
pipeline and modelled as a unit option). -/
structure WellnessQuery where
  user_id : String
  query : String
  intent : Option IntentType := none
  user_profile : Option Unit := none
deriving DecidableEq, Repr

/-- `memory/short_memory.py` `MemoryManager`: its `memory_store` dict is
modelled as an insertion-ordered association list with unique keys. -/
structure MemoryManager where
  memory_store : List (String × ConversationMemory) := []
  max_users : Nat := 100
deriving DecidableEq, Repr

/-- Dict lookup `store[u]` / membership `u in store`. -/
def lookupStore : List (String × ConversationMemory) → String → Option ConversationMemory
  | [], _ => none
  | (k, v) :: t, u => if k = u then some v else lookupStore t u

/-- Dict assignment `store[u] = m`: update in place when the key exists
(keeping insertion order), append otherwise. -/
def dictSet : List (String × ConversationMemory) → String → ConversationMemory →
    List (String × ConversationMemory)
  | [], u, m => [(u, m)]
  | (k, v) :: t, u, m => if k = u then (k, m) :: t else (k, v) :: dictSet t u m

/-- Dict deletion `del store[u]`. -/
def delKey : List (String × ConversationMemory) → String → List (String × ConversationMemory)
  | [], _ => []
  | (k, v) :: t, u => if k = u then t else (k, v) :: delKey t u

/-- `MemoryManager.__init__()` as called by the orchestrator (defaults). -/
def initManager : MemoryManager := {}

/-- `MemoryManager.get_or_create_memory`.  Returns `none` exactly when the
Python code raises (`next(iter({}))` raising `StopIteration` when the store
is empty yet already at a `max_users = 0` capacity); otherwise returns the
(found or fresh) memory and the updated manager. -/
def MemoryManager.get_or_create_memory (mm : MemoryManager) (user_id : String) :
    Option (ConversationMemory × MemoryManager) :=
  match lookupStore mm.memory_store user_id with
  | some mem => some (mem, mm)
  | none =>
      let evicted : Option (List (String × ConversationMemory)) :=
        if mm.max_users ≤ mm.memory_store.length then
          match mm.memory_store with
          | [] => none
          | (oldest_key, _) :: _ => some (delKey mm.memory_store oldest_key)
        else some mm.memory_store
      match evicted with
      | none => none
      | some store1 =>
          let fresh : ConversationMemory := { user_id := user_id }
          some (fresh, { mm with memory_store := dictSet store1 user_id fresh })

/-- `MemoryManager.add_user_message` (the Python in-place mutation of the
stored memory object becomes an in-place dict update). -/
def MemoryManager.add_user_message (mm : MemoryManager) (user_id message : String) :
    Option MemoryManager :=
  match mm.get_or_create_memory user_id with
  | none => none
  | some (memory, mm1) =>
      some { mm1 with
             memory_store := dictSet mm1.memory_store user_id (memory.add_message "user" message) }

/-- `MemoryManager.add_assistant_message`. -/
def MemoryManager.add_assistant_message (mm : MemoryManager) (user_id message : String) :
    Option MemoryManager :=
  match mm.get_or_create_memory user_id with
  | none => none
  | some (memory, mm1) =>
      some { mm1 with
             memory_store := dictSet mm1.memory_store user_id (memory.add_message "assistant" message) }

/-- `MemoryManager.get_conversation_context`. -/
def MemoryManager.get_conversation_context (mm : MemoryManager) (user_id : String) :
    Option (String × MemoryManager) :=
  match mm.get_or_create_memory user_id with
  | none => none
  | some (memory, mm1) => some (memory.get_context, mm1)

/-- The dict returned by `MemoryManager.get_memory_stats`. -/
structure MemoryStats where
  user_id : String
  message_count : Nat
  context_keys : List String
  last_message : Option ChatMessage
deriving DecidableEq, Repr

/-- `MemoryManager.get_memory_stats`. -/
def MemoryManager.get_memory_stats (mm : MemoryManager) (user_id : String) :
    Option (MemoryStats × MemoryManager) :=
  match mm.get_or_create_memory user_id with
  | none => none
  | some (memory, mm1) =>
      some ({ user_id := user_id,
              message_count := memory.messages.length,
              context_keys := memory.context.map Prod.fst,
              last_message := memory.messages.getLast? }, mm1)

/-- `MemoryManager.clear_memory`. -/
def MemoryManager.clear_memory (mm : MemoryManager) (user_id : String) : MemoryManager :=
  match lookupStore mm.memory_store user_id with
  | some _ => { mm with memory_store := delKey mm.memory_store user_id }
  | none => mm

/-- The four domain agents dispatched by the orchestrator, in the source's
invocation order `assess_symptoms`, `analyze_lifestyle`,
`provide_nutrition_guidance`, `provide_fitness_guidance`. -/
inductive AgentId where
  | symptom
  | lifestyle
  | diet
  | fitness
deriving DecidableEq, Repr

/-- What one awaited agent task yields to the orchestrator's result loop:
either the dict the agent coroutine returned (`success`, `agent_name`,
`content`, `confidence`, `recommendations` — a failed agent call returns a
dict with `success = False`), or a non-dict exception object captured by
`asyncio.gather(..., return_exceptions=True)`. -/
inductive AgentCallResult where
  | dict (success : Bool) (agent_name : String) (confidence : Rat)
      (content : String) (recommendations : List String)
  | exc
deriving DecidableEq, Repr

/-- An environment standing for the external LLM-backed agent coroutines:
given the agent, the query and the conversation context, the settled result
of that call. -/
def AgentEnv := AgentId → String → String → AgentCallResult

/-- The orchestrator keeps a result exactly when it is a dict whose
`success` entry is truthy, building an `AgentResponse` from its fields. -/
def successResponse : AgentCallResult → Option AgentResponse
  | .dict true agent_name confidence content recommendations =>
      some { agent_name := agent_name, content := content,
             confidence := confidence, recommendations := recommendations }
  | .dict false _ _ _ _ => none
  | .exc => none

/-- The intent under which `execute_agent_query` runs: the caller-supplied
one when present (`if not wellness_query.intent` fails), the classified one
otherwise. -/
def resolvedIntent (q : WellnessQuery) : IntentType :=
  match q.intent with
  | none => identify_intent q.query
  | some i => i

/-- `WellnessOrchestrator.execute_agent_query`: resolve the intent, read the
user's conversation context (a memory-store write for a fresh user), build
the task list by the if/elif chain (one agent for a specific intent, all
four for `general`), gather the results in invocation order, keep the
successful dicts, and append the user's query to memory.  `none` models the
only raising path (the memory store's `StopIteration` edge case). -/
def execute_agent_query (env : AgentEnv) (mm : MemoryManager) (q : WellnessQuery) :
    Option (List AgentResponse × MemoryManager × IntentType) :=
  let intent := resolvedIntent q
  match mm.get_conversation_context q.user_id with
  | none => none
  | some (context, mm1) =>
      let agent_tasks : List AgentId :=
        if intent = IntentType.symptom then [AgentId.symptom]
        else if intent = IntentType.lifestyle then [AgentId.lifestyle]
        else if intent = IntentType.diet then [AgentId.diet]
        else if intent = IntentType.fitness then [AgentId.fitness]
        else [AgentId.symptom, AgentId.lifestyle, AgentId.diet, AgentId.fitness]
      let results := agent_tasks.map (fun a => env a q.query context)
      let agent_responses := results.filterMap successResponse
      match mm1.add_user_message q.user_id q.query with
      | none => none
      | some mm2 => some (agent_responses, mm2, intent)

/-- The dict returned by `WellnessOrchestrator.process_wellness_query`.
The emergency branch and the safe branch return different key sets, so the
keys present in only one branch are options defaulting to `none` (absent).
Neither branch has a `disclaimer` key. -/
structure ProcessResult where
  user_id : String
  query : String
  intent : String
  agent_responses : List AgentResponse
  synthesized_guidance : Option String := none
  primary_recommendations : Option (List String) := none
  warning : Option String := none
  requires_emergency : Option Bool := none
  agent_count : Option Nat := none
deriving DecidableEq, Repr

/-- `WellnessOrchestrator.process_wellness_query`: classify (overwriting any
caller-supplied intent on the query object), run the safety filter, and
either short-circuit to the emergency dict or dispatch and return the
agent responses with their count. -/
def process_wellness_query (env : AgentEnv) (mm : MemoryManager) (q : WellnessQuery) :
    Option (ProcessResult × MemoryManager) :=
  let intent := identify_intent q.query
  let q1 := { q with intent := some intent }
  let fs := filter_intent_safety intent q.query
  if fs.1 = false then
    some ({ user_id := q.user_id, query := q.query, intent := intentValue intent,
            agent_responses := [],
            synthesized_guidance := some fs.2,
            primary_recommendations := some [],
            warning := some fs.2,
            requires_emergency := some true }, mm)
  else
    match execute_agent_query env mm q1 with
    | none => none
    | some (agent_responses, mm2, _) =>
        some ({ user_id := q.user_id, query := q.query, intent := intentValue intent,
                agent_responses := agent_responses,
                agent_count := some agent_responses.length }, mm2)

/-- `models/schemas.py` `WellnessResponse` as constructed by the
synthesizer. -/
structure WellnessResponse where
  user_id : String
  query : String
  intent : IntentType
  agent_responses : List AgentResponse
  synthesized_guidance : String
  primary_recommendations : List String
  disclaimer : String := "This is educational guidance, not medical advice."
deriving DecidableEq, Repr

/-- `ResponseSynthesizer.min_confidence_threshold`. -/
def min_confidence_threshold : Rat := 0.65

/-- One step of `_extract_unified_recommendations`'s inner loop: the state is
`(all_recs, seen)`; a recommendation is kept when the lowercase
first-50-character prefix is new. -/
def unifyStep (st : List String × List String) (r : String) : List String × List String :=
  let rec_lower := strTake 50 (strLower r)
  if st.2.contains rec_lower then st else (st.1 ++ [r], rec_lower :: st.2)

/-- `ResponseSynthesizer._extract_unified_recommendations`: walk responses
in order, each response's recommendations in order, keep first occurrences
by lowercase 50-character prefix, and truncate the collected list to
`limit`. -/
def extract_unified_recommendations (responses : List AgentResponse) (limit : Nat) :
    List String :=
  let st := responses.foldl (fun st resp => resp.recommendations.foldl unifyStep st) ([], [])
  st.1.take limit

/-- The numbered items `"\n{i}. {rec}"` appended by the synthesis loops. -/
def numberItems (start : Nat) : List String → String
  | [] => ""
  | r :: t => "\n" ++ toString start ++ ". " ++ r ++ numberItems (start + 1) t

/-- The bulleted items `"\n• {rec}"` appended by the synthesis loops. -/
def bulletItems : List String → String
  | [] => ""
  | r :: t => "\n• " ++ r ++ bulletItems t

/-- `ResponseSynthesizer._synthesize_symptom_response`; `fill` stands for
`textwrap.fill(·, width=80)` from the Python standard library, treated as an
opaque text formatter. -/
def synthesize_symptom_response (fill : String → String)
    (responses : List AgentResponse) (query : String) : String :=
  let primary := responses.head?
  "\n## Symptom Assessment\n\n**Your concern:** " ++ query
    ++ "\n\n**Initial Assessment:**\n"
    ++ fill (match primary with
             | some p => strTake 300 p.content ++ "..."
             | none => "Unable to assess.")
    ++ "\n\n**Key Recommendations:**\n"
    ++ (match primary with
        | some p => numberItems 1 (p.recommendations.take 4)
        | none => "")
    ++ "\n\n**Important Note:**\n"
    ++ "This is general wellness perspective. If symptoms persist, worsen, or are severe, please consult a healthcare provider.\n"

/-- `ResponseSynthesizer._synthesize_lifestyle_response`. -/
def synthesize_lifestyle_response (fill : String → String)
    (responses : List AgentResponse) (query : String) : String :=
  let primary := responses.head?
  "\n## Lifestyle & Wellness Guidance\n\n**Your question:** " ++ query
    ++ "\n\n**Recommended Approach:**\n"
    ++ fill (match primary with
             | some p => strTake 250 p.content ++ "..."
             | none => "Unable to provide guidance.")
    ++ "\n\n**Action Items:**\n"
    ++ (match primary with
        | some p => bulletItems (p.recommendations.take 5)
        | none => "")
    ++ "\n\n**Implementation Strategy:**\n"
    ++ "Start with 1-2 recommendations that resonate most with you. Build momentum gradually.\n"

/-- `ResponseSynthesizer._synthesize_diet_response`. -/
def synthesize_diet_response (fill : String → String)
    (responses : List AgentResponse) (query : String) : String :=
  let primary := responses.head?
  "\n## Nutrition & Diet Guidance\n\n**Your question:** " ++ query
    ++ "\n\n**Nutritional Perspective:**\n"
    ++ fill (match primary with
             | some p => strTake 250 p.content ++ "..."
             | none => "No nutrition guidance available.")
    ++ "\n\n**Food Suggestions:**\n"
    ++ (match primary with
        | some p => bulletItems (p.recommendations.take 5)
        | none => "")
    ++ "\n\n**Dietary Note:**\n"
    ++ "For specific medical dietary needs, consult a registered dietitian.\n"

/-- `ResponseSynthesizer._synthesize_fitness_response`. -/
def synthesize_fitness_response (fill : String → String)
    (responses : List AgentResponse) (query : String) : String :=
  let primary := responses.head?
  "\n## Fitness & Exercise Guidance\n\n**Your question:** " ++ query
    ++ "\n\n**Exercise Recommendation:**\n"
    ++ fill (match primary with
             | some p => strTake 250 p.content ++ "..."
             | none => "No exercise guidance available.")
    ++ "\n\n**Suggested Activities:**\n"
    ++ (match primary with
        | some p => bulletItems (p.recommendations.take 5)
        | none => "")
    ++ "\n\n**Safety Note:**\n"
    ++ "Start gradually and listen to your body. Stop if you experience pain. Consult healthcare provider before starting new programs.\n"

/-- `ResponseSynthesizer._synthesize_general_response`: up to four responses
with confidence above 0.7, then the unified recommendation list with
limit 6. -/
def synthesize_general_response (fill : String → String)
    (responses : List AgentResponse) (query : String) : String :=
  "\n## Comprehensive Wellness Perspective\n\n**Your question:** " ++ query
    ++ "\n\n**Multi-Dimensional Assessment:**\n"
    ++ String.join ((responses.take 4).map (fun r =>
         if (0.7 : Rat) < r.confidence then
           "\n\n**" ++ r.agent_name ++ ":**\n" ++ fill (strTake 200 r.content ++ "...")
         else ""))
    ++ "\n\n**Integrated Recommendations:**\n"
    ++ numberItems 1 (extract_unified_recommendations responses 6)

/-- `ResponseSynthesizer._get_fallback_guidance`. -/
def get_fallback_guidance : IntentType → String
  | .symptom => "Unable to assess symptoms at this time. Please consult a healthcare provider."
  | .lifestyle => "Unable to provide lifestyle guidance. Consider consulting a wellness coach."
  | .diet => "Unable to provide nutrition guidance. Consult a registered dietitian."
  | .fitness => "Unable to provide fitness guidance. Consult a fitness professional."
  | .general => "Unable to process your query. Please rephrase and try again."

/-- `ResponseSynthesizer._synthesize_by_intent`. -/
def synthesize_by_intent (fill : String → String) (intent : IntentType)
    (responses : List AgentResponse) (query : String) : String :=
  if responses.isEmpty then get_fallback_guidance intent
  else if intent = IntentType.symptom then synthesize_symptom_response fill responses query
  else if intent = IntentType.lifestyle then synthesize_lifestyle_response fill responses query
  else if intent = IntentType.diet then synthesize_diet_response fill responses query
  else if intent = IntentType.fitness then synthesize_fitness_response fill responses query
  else synthesize_general_response fill responses query

/-- `ResponseSynthesizer.synthesize_responses`: filter to
confidence ≥ 0.65 (falling back to the unfiltered list when that empties
it), synthesize the document, extract the unified recommendations with
limit 7, and assemble the `WellnessResponse` with its fixed disclaimer. -/
def synthesize_responses (fill : String → String) (user_id query : String)
    (intent : IntentType) (agent_responses : List AgentResponse) : WellnessResponse :=
  let valid_responses := agent_responses.filter
    (fun r => min_confidence_threshold ≤ r.confidence)
  let valid_responses := if valid_responses.isEmpty then agent_responses else valid_responses
  let synthesized_text := synthesize_by_intent fill intent valid_responses query
  let primary_recommendations := extract_unified_recommendations valid_responses 7
  { user_id := user_id, query := query, intent := intent,
    agent_responses := valid_responses,
    synthesized_guidance := synthesized_text,
    primary_recommendations := primary_recommendations,
    disclaimer := "This is educational wellness guidance, not medical advice. Consult healthcare professionals for medical concerns." }

namespace Mock

/-- `MockOrchestrator.detect_intent` from the service entrypoint `main.py`:
first-match any-substring routing over four short keyword lists. -/
def detect_intent (query : String) : String :=
  let query_lower := strLower query
  if ["tired", "pain", "headache", "sick"].any (fun w => containsSubstr query_lower w) then
    "symptom"
  else if ["sleep", "stress", "routine"].any (fun w => containsSubstr query_lower w) then
    "lifestyle"
  else if ["food", "eat", "diet"].any (fun w => containsSubstr query_lower w) then
    "diet"
  else if ["exercise", "workout", "gym"].any (fun w => containsSubstr query_lower w) then
    "fitness"
  else "general"

/-- `MockOrchestrator.get_agent_responses`: one canned agent response dict
chosen by keyword. -/
def get_agent_responses (query : String) : List AgentResponse :=
  let query_lower := strLower query
  if containsSubstr query_lower "tired" then
    [{ agent_name := "Symptom Assessment",
       content := "## Symptom Assessment\n\n**Your concern:** " ++ query
         ++ "\n\n**Analysis:** Fatigue can be caused by poor sleep, dehydration, or stress.\n\n**Recommendations:**\n• Drink 8-10 glasses of water daily\n• Aim for 7-8 hours of quality sleep\n• Take 10-minute walks daily\n• Practice deep breathing exercises\n\n**When to seek help:** If fatigue persists >2 weeks or worsens.",
       confidence := 0.85,
       recommendations := ["Drink 8-10 glasses water", "7-8 hours sleep", "10-min walks", "Deep breathing"] }]
  else if containsSubstr query_lower "food" || containsSubstr query_lower "eat" then
    [{ agent_name := "Nutrition Guide",
       content := "## Nutrition Guidance\n\n**Your question:** " ++ query
         ++ "\n\n**Recommendations:**\n• Eat complex carbs (oats, sweet potatoes, quinoa)\n• Include healthy fats (avocado, nuts, olive oil)\n• Protein sources (eggs, fish, legumes)\n• Leafy greens and colorful vegetables\n• Stay hydrated throughout day\n\n**Sample meal:** Oatmeal + berries + nuts breakfast.",
       confidence := 0.80,
       recommendations := ["Complex carbs", "Healthy fats", "Quality protein", "Leafy greens", "Stay hydrated"] }]
  else if containsSubstr query_lower "exercise" then
    [{ agent_name := "Fitness Coach",
       content := "## Fitness Guidance\n\n**Your question:** " ++ query
         ++ "\n\n**Beginner Plan:**\n• **Week 1:** 20-min brisk walking daily\n• **Week 2:** Add bodyweight squats (3x10)\n• **Week 3:** Add push-ups (knee version, 3x8)\n\n**Safety:** Start slow, proper form, stop if pain.\n**Progress:** Increase time/reps gradually.",
       confidence := 0.81,
       recommendations := ["20-min walks", "Bodyweight squats", "Knee push-ups", "Proper form first"] }]
  else
    [{ agent_name := "Lifestyle Coach",
       content := "## General Wellness\n\n**Query:** " ++ query
         ++ "\n\n**Holistic Approach:**\n• Prioritize sleep hygiene\n• Stay consistently hydrated\n• Move body daily (even walking)\n• Practice stress management\n• Eat whole nutrient-dense foods",
       confidence := 0.75,
       recommendations := ["Sleep hygiene", "Hydration", "Daily movement", "Stress management", "Whole foods"] }]

/-- The dict `MockOrchestrator.process_wellness_query` returns. -/
structure MockResult where
  user_id : String
  query : String
  intent : String
  agent_responses : List AgentResponse
  agent_count : Nat
deriving DecidableEq, Repr

/-- `MockOrchestrator.process_wellness_query` (the entrypoint's orchestrator
instance). -/
def process_wellness_query (user_id query : String) : MockResult :=
  { user_id := user_id, query := query,
    intent := detect_intent query,
    agent_responses := get_agent_responses query,
    agent_count := 1 }

end Mock

/-- The inbound request model of the entrypoint's `/wellness/query` route. -/
structure QueryRequest where
  user_id : String
  query : String
  intent : Option String := none
  user_profile : Option Unit := none
deriving DecidableEq, Repr

/-- The entrypoint's `QueryResponse` model. -/
structure QueryResponse where
  user_id : String
  query : String
  intent : String
  agent_responses : List AgentResponse
  synthesized_guidance : String
  primary_recommendations : List String
  agent_count : Nat
  warning : Option String := none
  requires_emergency : Bool := false
deriving DecidableEq, Repr

/-- The emergency phrase list screened by the top-level request handler
before any intent work (`"can\x27t breathe"` is the source's
`can't breathe`). -/
def emergency_keywords : List String := ["chest pain", "can\x27t breathe", "suicidal"]

/-- The top-level request handler `wellness_query` from the entrypoint
`main.py`: screen the lowercased raw query against `emergency_keywords`
first — before and independently of any intent detection — and on a match
return the fixed emergency response (`requires_emergency = True`, empty
agent list); otherwise run the orchestrator and flatten its first agent
response into the reply. -/
def wellness_query (request : QueryRequest) : QueryResponse :=
  if emergency_keywords.any (fun kw => containsSubstr (strLower request.query) kw) then
    { user_id := request.user_id,
      query := request.query,
      intent := "emergency",
      agent_responses := [],
      synthesized_guidance := "🚨 CRITICAL: Seek emergency medical help immediately (911)",
      primary_recommendations := [],
      agent_count := 0,
      warning := some "EMERGENCY REQUIRED",
      requires_emergency := true }
  else
    let result := Mock.process_wellness_query request.user_id request.query
    let synthesized_guidance :=
      match result.agent_responses.head? with
      | some r => r.content
      | none => "No guidance available"
    let recommendations :=
      match result.agent_responses.head? with
      | some r => r.recommendations
      | none => []
    { user_id := result.user_id,
      query := result.query,
      intent := result.intent,
      agent_responses := result.agent_responses,
      synthesized_guidance := synthesized_guidance,
      primary_recommendations := recommendations,
      agent_count := result.agent_count }

/-! Spec-side definitions.  These follow the wording of the specification
(not the source) and exist to be compared with the transliterated code. -/

/-- The intents that carry keyword lists, in declaration order. -/
def nonGeneralIntents : List IntentType :=
  [IntentType.symptom, IntentType.lifestyle, IntentType.diet, IntentType.fitness]

/-- The classifier as the spec words it: score each non-general intent by
counting its keywords present as substrings of the lowercased query; if the
greatest score is 0 return `general`, otherwise return the first-declared
intent achieving the greatest score. -/
def classifySpec (query : String) : IntentType :=
  let ql := strLower query
  let m := (nonGeneralIntents.map (intentScore ql)).foldr Nat.max 0
  if m = 0 then IntentType.general
  else ((nonGeneralIntents.filter (fun i => intentScore ql i = m)).head?).getD IntentType.general

/-- The generators the spec says a dispatch invokes: exactly the one mapped
to a specific intent, all four (in invocation order) for `general`. -/
def claimTasks : IntentType → List AgentId
  | .symptom => [AgentId.symptom]
  | .lifestyle => [AgentId.lifestyle]
  | .diet => [AgentId.diet]
  | .fitness => [AgentId.fitness]
  | .general => [AgentId.symptom, AgentId.lifestyle, AgentId.diet, AgentId.fitness]

/-- The memory `get_or_create_memory` hands back for a user: the stored one
when present, a fresh empty one otherwise. -/
def peekMemory (mm : MemoryManager) (user_id : String) : ConversationMemory :=
  (lookupStore mm.memory_store user_id).getD { user_id := user_id }

/-- The context string a dispatch passes to the generators for a user. -/
def peekContext (mm : MemoryManager) (user_id : String) : String :=
  (peekMemory mm user_id).get_context

/-- The lowercase first-50-character prefix the deduplication keys on. -/
def lowerFifty (s : String) : String := strTake 50 (strLower s)

/-- The deduplication as the spec words it: keep a recommendation the first
time its lowercase 50-character prefix has not been seen. -/
def dedupFirst (seen : List String) : List String → List String
  | [] => []
  | r :: t =>
      if lowerFifty r ∈ seen then dedupFirst seen t
      else r :: dedupFirst (lowerFifty r :: seen) t

/-- Whether an awaited agent call settled as a success dict. -/
def agentSuccess : AgentCallResult → Bool
  | .dict s _ _ _ _ => s
  | .exc => false

/-- The classification outcome as a function of the four keyword scores:
`general` when the maximum is 0, otherwise the first-declared intent whose
score equals the maximum. -/
def firstMaxIntent (a b c d : Nat) : IntentType :=
  let m := Nat.max a (Nat.max b (Nat.max c (Nat.max d 0)))
  if m = 0 then IntentType.general
  else if a = m then IntentType.symptom
  else if b = m then IntentType.lifestyle
  else if c = m then IntentType.diet
  else IntentType.fitness

/-- The four-way maximum is attained by one of its arguments. -/
theorem max4_cases (a b c d : Nat) :
    Nat.max a (Nat.max b (Nat.max c (Nat.max d 0))) = a ∨
    Nat.max a (Nat.max b (Nat.max c (Nat.max d 0))) = b ∨
    Nat.max a (Nat.max b (Nat.max c (Nat.max d 0))) = c ∨
    Nat.max a (Nat.max b (Nat.max c (Nat.max d 0))) = d ∨
    Nat.max a (Nat.max b (Nat.max c (Nat.max d 0))) = 0 := by
  simp only [Nat.max_def]
  split_ifs <;> omega

/-- `firstMaxIntent` is `symptom` when the first score dominates. -/
theorem firstMax_of_sym (a b c d : Nat) (hb : b ≤ a) (hc : c ≤ a) (hd : d ≤ a) :
    (if a = 0 then IntentType.general else IntentType.symptom) = firstMaxIntent a b c d := by
  have hm : Nat.max a (Nat.max b (Nat.max c (Nat.max d 0))) = a := by
    simp only [Nat.max_def]; split_ifs <;> omega
  unfold firstMaxIntent
  rw [hm]
  by_cases haz : a = 0
  · rw [if_pos haz, if_pos haz]
  · rw [if_neg haz, if_neg haz, if_pos rfl]

/-- `firstMaxIntent` is `lifestyle` when the second score strictly beats the
first and dominates the rest. -/
theorem firstMax_of_lif (a b c d : Nat) (ha : a < b) (hc : c ≤ b) (hd : d ≤ b) :
    (if b = 0 then IntentType.general else IntentType.lifestyle) = firstMaxIntent a b c d := by
  have hm : Nat.max a (Nat.max b (Nat.max c (Nat.max d 0))) = b := by
    simp only [Nat.max_def]; split_ifs <;> omega
  unfold firstMaxIntent
  rw [hm, if_neg (by omega), if_neg (by omega), if_neg (by omega), if_pos rfl]

/-- `firstMaxIntent` is `diet` when the third score strictly beats the first
two and dominates the fourth. -/
theorem firstMax_of_diet (a b c d : Nat) (ha : a < c) (hb : b < c) (hd : d ≤ c) :
    (if c = 0 then IntentType.general else IntentType.diet) = firstMaxIntent a b c d := by
  have hm : Nat.max a (Nat.max b (Nat.max c (Nat.max d 0))) = c := by
    simp only [Nat.max_def]; split_ifs <;> omega
  unfold firstMaxIntent
  rw [hm, if_neg (by omega), if_neg (by omega), if_neg (by omega), if_neg (by omega), if_pos rfl]

/-- `firstMaxIntent` is `fitness` when the fourth score strictly beats the
other three. -/
theorem firstMax_of_fit (a b c d : Nat) (ha : a < d) (hb : b < d) (hc : c < d) :
    (if d = 0 then IntentType.general else IntentType.fitness) = firstMaxIntent a b c d := by
  have hm : Nat.max a (Nat.max b (Nat.max c (Nat.max d 0))) = d := by
    simp only [Nat.max_def]; split_ifs <;> omega
  unfold firstMaxIntent
  rw [hm, if_neg (by omega), if_neg (by omega), if_neg (by omega), if_neg (by omega),
    if_neg (by omega)]

/-- The Python `max`-then-zero-check at the heart of `identify_intent`,
computed in closed form over the four scores. -/
theorem maxIntentAux_firstMax (a b c d : Nat) :
    (if (maxIntentAux (IntentType.symptom, a)
        [(IntentType.lifestyle, b), (IntentType.diet, c), (IntentType.fitness, d),
         (IntentType.general, 0)]).2 = 0
     then IntentType.general
     else (maxIntentAux (IntentType.symptom, a)
        [(IntentType.lifestyle, b), (IntentType.diet, c), (IntentType.fitness, d),
         (IntentType.general, 0)]).1)
    = firstMaxIntent a b c d := by
  simp only [maxIntentAux]
  rw [if_neg (Nat.not_lt_zero _)]
  by_cases h1 : a < b
  · rw [if_pos h1]; dsimp only
    by_cases h2 : b < c
    · rw [if_pos h2]; dsimp only
      by_cases h3 : c < d
      · rw [if_pos h3]; dsimp only
        exact firstMax_of_fit a b c d (by omega) (by omega) (by omega)
      · rw [if_neg h3]; dsimp only
        exact firstMax_of_diet a b c d (by omega) (by omega) (by omega)
    · rw [if_neg h2]; dsimp only
      by_cases h3 : b < d
      · rw [if_pos h3]; dsimp only
        exact firstMax_of_fit a b c d (by omega) (by omega) (by omega)
      · rw [if_neg h3]; dsimp only
        exact firstMax_of_lif a b c d (by omega) (by omega) (by omega)
  · rw [if_neg h1]; dsimp only
    by_cases h2 : a < c
    · rw [if_pos h2]; dsimp only
      by_cases h3 : c < d
      · rw [if_pos h3]; dsimp only
        exact firstMax_of_fit a b c d (by omega) (by omega) (by omega)
      · rw [if_neg h3]; dsimp only
        exact firstMax_of_diet a b c d (by omega) (by omega) (by omega)
    · rw [if_neg h2]; dsimp only
      by_cases h3 : a < d
      · rw [if_pos h3]; dsimp only
        exact firstMax_of_fit a b c d (by omega) (by omega) (by omega)
      · rw [if_neg h3]; dsimp only
        exact firstMax_of_sym a b c d (by omega) (by omega) (by omega)

/-- `identify_intent` in terms of its four keyword scores. -/
theorem identify_intent_eq_firstMax (q : String) :
    identify_intent q = firstMaxIntent
      (intentScore (strLower q) IntentType.symptom)
      (intentScore (strLower q) IntentType.lifestyle)
      (intentScore (strLower q) IntentType.diet)
      (intentScore (strLower q) IntentType.fitness) :=
  maxIntentAux_firstMax _ _ _ _

/-- The spec-worded classifier in terms of the four keyword scores. -/
theorem classifySpec_eq_firstMax (q : String) :
    classifySpec q = firstMaxIntent
      (intentScore (strLower q) IntentType.symptom)
      (intentScore (strLower q) IntentType.lifestyle)
      (intentScore (strLower q) IntentType.diet)
      (intentScore (strLower q) IntentType.fitness) := by
  unfold classifySpec firstMaxIntent
  simp only [nonGeneralIntents, List.map_cons, List.map_nil, List.foldr_cons, List.foldr_nil,
    List.filter_cons, List.filter_nil, decide_eq_true_eq]
  generalize intentScore (strLower q) IntentType.symptom = a
  generalize intentScore (strLower q) IntentType.lifestyle = b
  generalize intentScore (strLower q) IntentType.diet = c
  generalize intentScore (strLower q) IntentType.fitness = d
  by_cases hm : Nat.max a (Nat.max b (Nat.max c (Nat.max d 0))) = 0
  · rw [if_pos hm, if_pos hm]
  · rw [if_neg hm, if_neg hm]
    by_cases ha : a = Nat.max a (Nat.max b (Nat.max c (Nat.max d 0)))
    · rw [if_pos ha, if_pos ha]; rfl
    · rw [if_neg ha, if_neg ha]
      by_cases hb : b = Nat.max a (Nat.max b (Nat.max c (Nat.max d 0)))
      · rw [if_pos hb, if_pos hb]; rfl
      · rw [if_neg hb, if_neg hb]
        by_cases hc : c = Nat.max a (Nat.max b (Nat.max c (Nat.max d 0)))
        · rw [if_pos hc, if_pos hc]; rfl
        · rw [if_neg hc, if_neg hc]
          by_cases hd : d = Nat.max a (Nat.max b (Nat.max c (Nat.max d 0)))
          · rw [if_pos hd]; rfl
          · exfalso
            rcases max4_cases a b c d with h | h | h | h | h <;> omega

/-- `firstMaxIntent` at a single positive symptom score. -/
theorem firstMax_symptom (a : Nat) (h : 0 < a) :
    firstMaxIntent a 0 0 0 = IntentType.symptom := by
  unfold firstMaxIntent
  simp only [Nat.max_def]
  split_ifs <;> first | rfl | omega

/-- `firstMaxIntent` at a single positive lifestyle score. -/
theorem firstMax_lifestyle (b : Nat) (h : 0 < b) :
    firstMaxIntent 0 b 0 0 = IntentType.lifestyle := by
  unfold firstMaxIntent
  simp only [Nat.max_def]
  split_ifs <;> first | rfl | omega

/-- `firstMaxIntent` at a single positive diet score. -/
theorem firstMax_diet (c : Nat) (h : 0 < c) :
    firstMaxIntent 0 0 c 0 = IntentType.diet := by
  unfold firstMaxIntent
  simp only [Nat.max_def]
  split_ifs <;> first | rfl | omega

/-- `firstMaxIntent` at a single positive fitness score. -/
theorem firstMax_fitness (d : Nat) (h : 0 < d) :
    firstMaxIntent 0 0 0 d = IntentType.fitness := by
  unfold firstMaxIntent
  simp only [Nat.max_def]
  split_ifs <;> first | rfl | omega

/-! Claim C6. -/

/-- Claim C6: `identify_intent` lowercases the query, scores each
non-general intent by the number of its keywords present as substrings
(each keyword at most once — `intentScore` counts keyword-list entries, not
occurrences), returns `general` when the greatest score is 0, and otherwise
the first-declared intent with the greatest score — i.e. it coincides with
the spec-worded `classifySpec` everywhere; in particular a query with zero
keyword matches gives `general`, and a query whose matches all lie in a
single intent family gives that intent. -/
theorem identify_intent_matches_spec (q : String) :
    identify_intent q = classifySpec q ∧
    ((∀ i ∈ nonGeneralIntents, intentScore (strLower q) i = 0) →
      identify_intent q = IntentType.general) ∧
    (∀ i ∈ nonGeneralIntents, 0 < intentScore (strLower q) i →
      (∀ j ∈ nonGeneralIntents, j ≠ i → intentScore (strLower q) j = 0) →
      identify_intent q = i) := by
  refine ⟨(identify_intent_eq_firstMax q).trans (classifySpec_eq_firstMax q).symm, ?_, ?_⟩
  · intro h
    have ha := h IntentType.symptom (by simp [nonGeneralIntents])
    have hb := h IntentType.lifestyle (by simp [nonGeneralIntents])
    have hc := h IntentType.diet (by simp [nonGeneralIntents])
    have hd := h IntentType.fitness (by simp [nonGeneralIntents])
    rw [identify_intent_eq_firstMax q, ha, hb, hc, hd]
    rfl
  · intro i hi hpos hz
    have hmem : i = IntentType.symptom ∨ i = IntentType.lifestyle ∨
        i = IntentType.diet ∨ i = IntentType.fitness := by
      simpa [nonGeneralIntents] using hi
    rw [identify_intent_eq_firstMax q]
    rcases hmem with rfl | rfl | rfl | rfl
    · have hb := hz IntentType.lifestyle (by simp [nonGeneralIntents]) (by decide)
      have hc := hz IntentType.diet (by simp [nonGeneralIntents]) (by decide)
      have hd := hz IntentType.fitness (by simp [nonGeneralIntents]) (by decide)
      rw [hb, hc, hd, ← firstMax_of_sym _ _ _ _ (by omega) (by omega) (by omega),
        if_neg (by omega)]
    · have ha := hz IntentType.symptom (by simp [nonGeneralIntents]) (by decide)
      have hc := hz IntentType.diet (by simp [nonGeneralIntents]) (by decide)
      have hd := hz IntentType.fitness (by simp [nonGeneralIntents]) (by decide)
      rw [ha, hc, hd, ← firstMax_of_lif _ _ _ _ (by omega) (by omega) (by omega),
        if_neg (by omega)]
    · have ha := hz IntentType.symptom (by simp [nonGeneralIntents]) (by decide)
      have hb := hz IntentType.lifestyle (by simp [nonGeneralIntents]) (by decide)
      have hd := hz IntentType.fitness (by simp [nonGeneralIntents]) (by decide)
      rw [ha, hb, hd, ← firstMax_of_diet _ _ _ _ (by omega) (by omega) (by omega),
        if_neg (by omega)]
    · have ha := hz IntentType.symptom (by simp [nonGeneralIntents]) (by decide)
      have hb := hz IntentType.lifestyle (by simp [nonGeneralIntents]) (by decide)
      have hc := hz IntentType.diet (by simp [nonGeneralIntents]) (by decide)
      rw [ha, hb, hc, ← firstMax_of_fit _ _ _ _ (by omega) (by omega) (by omega),
        if_neg (by omega)]

/-- Witness for C6: a query with no keyword matches classifies as
`general`, and a query matching only the `diet` family classifies as
`diet`. -/
theorem identify_intent_matches_spec_witness :
    identify_intent "zzz qqq" = IntentType.general ∧
    identify_intent "please cook something" = IntentType.diet :=
  ⟨(identify_intent_matches_spec "zzz qqq").2.1 (by decide),
   (identify_intent_matches_spec "please cook something").2.2 IntentType.diet
     (by decide) (by decide) (by decide)⟩

/-! Claim C5. -/

/-- The nested result/recommendation walk of
`_extract_unified_recommendations` equals one walk over the flattened
recommendation sequence. -/
theorem foldl_nested_join (responses : List AgentResponse) :
    ∀ st, responses.foldl (fun st resp => resp.recommendations.foldl unifyStep st) st
      = ((responses.map (fun r => r.recommendations)).flatten).foldl unifyStep st := by
  induction responses with
  | nil => intro st; simp
  | cons r t ih => intro st; simp [List.foldl_append, ih]

/-- The accumulator of the deduplication fold is the already-collected list
followed by the spec-worded first-occurrence deduplication of the rest. -/
theorem unify_foldl_eq_dedup (l : List String) :
    ∀ acc seen, (l.foldl unifyStep (acc, seen)).1 = acc ++ dedupFirst seen l := by
  induction l with
  | nil => intro acc seen; simp [dedupFirst]
  | cons r t ih =>
      intro acc seen
      simp only [List.foldl_cons, dedupFirst]
      by_cases h : lowerFifty r ∈ seen
      · rw [if_pos h]
        have h' : strTake 50 (strLower r) ∈ seen := h
        have hstep : unifyStep (acc, seen) r = (acc, seen) := by
          simp [unifyStep, List.contains, h']
        rw [hstep, ih]
      · rw [if_neg h]
        have h' : strTake 50 (strLower r) ∉ seen := h
        have hstep : unifyStep (acc, seen) r = (acc ++ [r], lowerFifty r :: seen) := by
          simp [unifyStep, List.contains, h']
          rfl
        rw [hstep, ih, List.append_assoc, List.singleton_append]

/-- First-occurrence deduplication yields a sublist (keeps relative
order). -/
theorem dedupFirst_sublist (l : List String) :
    ∀ seen, (dedupFirst seen l).Sublist l := by
  induction l with
  | nil => intro seen; simp [dedupFirst]
  | cons r t ih =>
      intro seen
      simp only [dedupFirst]
      by_cases h : lowerFifty r ∈ seen
      · rw [if_pos h]; exact (ih seen).cons r
      · rw [if_neg h]; exact (ih _).cons₂ r

/-- No kept recommendation has a prefix that was already seen. -/
theorem dedupFirst_not_seen (l : List String) :
    ∀ seen s, s ∈ dedupFirst seen l → lowerFifty s ∉ seen := by
  induction l with
  | nil => intro seen s hs; simp [dedupFirst] at hs
  | cons r t ih =>
      intro seen s hs
      simp only [dedupFirst] at hs
      by_cases h : lowerFifty r ∈ seen
      · rw [if_pos h] at hs; exact ih seen s hs
      · rw [if_neg h] at hs
        rcases List.mem_cons.mp hs with rfl | hmem
        · exact h
        · intro hcon
          exact ih _ s hmem (List.mem_cons_of_mem _ hcon)

/-- First-occurrence deduplication leaves no two entries with equal
lowercase 50-character prefixes. -/
theorem dedupFirst_pairwise (l : List String) :
    ∀ seen, (dedupFirst seen l).Pairwise (fun a b => lowerFifty a ≠ lowerFifty b) := by
  induction l with
  | nil => intro seen; simp [dedupFirst]
  | cons r t ih =>
      intro seen
      simp only [dedupFirst]
      by_cases h : lowerFifty r ∈ seen
      · rw [if_pos h]; exact ih seen
      · rw [if_neg h]
        refine List.Pairwise.cons ?_ (ih _)
        intro b hb he
        exact dedupFirst_not_seen t _ b hb (by rw [← he]; exact List.mem_cons_self _ _)

/-- Claim C5: `_extract_unified_recommendations` equals the spec-worded
walk (keep the first occurrence of each lowercase 50-character prefix over
the results in order and their recommendations in order) truncated to
`limit`; consequently its output has length at most `limit`, contains no
two entries with equal lowercase 50-character prefixes, and is a sublist of
the flattened recommendation walk (first-occurrence order preserved). -/
theorem unify_dedup_spec (responses : List AgentResponse) (limit : Nat) :
    extract_unified_recommendations responses limit
      = (dedupFirst [] ((responses.map (fun r => r.recommendations)).flatten)).take limit ∧
    (extract_unified_recommendations responses limit).length ≤ limit ∧
    (extract_unified_recommendations responses limit).Pairwise
      (fun a b => lowerFifty a ≠ lowerFifty b) ∧
    (extract_unified_recommendations responses limit).Sublist
      ((responses.map (fun r => r.recommendations)).flatten) := by
  have heq : extract_unified_recommendations responses limit
      = (dedupFirst [] ((responses.map (fun r => r.recommendations)).flatten)).take limit := by
    simp only [extract_unified_recommendations]
    rw [foldl_nested_join, unify_foldl_eq_dedup, List.nil_append]
  refine ⟨heq, ?_, ?_, ?_⟩
  · rw [heq, List.length_take]
    exact Nat.min_le_left _ _
  · rw [heq]
    exact (dedupFirst_pairwise _ []).sublist (List.take_sublist _ _)
  · rw [heq]
    exact (List.take_sublist _ _).trans (dedupFirst_sublist _ [])

/-! Claim C8. -/

/-- `takeLastL` keeps at most `n` elements. -/
theorem takeLastL_length_le (n : Nat) (l : List α) : (takeLastL n l).length ≤ n := by
  unfold takeLastL
  rw [List.length_drop]
  omega

/-- `takeLastL` of a short enough list is the whole list. -/
theorem takeLastL_of_le {n : Nat} {l : List α} (h : l.length ≤ n) : takeLastL n l = l := by
  unfold takeLastL
  rw [Nat.sub_eq_zero_of_le h, List.drop_zero]

/-- Taking the last `n` twice around an append collapses. -/
theorem takeLastL_append_chain (n : Nat) (l r : List α) :
    takeLastL n (takeLastL n l ++ r) = takeLastL n (l ++ r) := by
  unfold takeLastL
  rcases Nat.le_total l.length n with h | h
  · rw [Nat.sub_eq_zero_of_le h, List.drop_zero]
  · have hlen : (l.drop (l.length - n)).length = n := by
      rw [List.length_drop]; omega
    rw [List.length_append, List.length_append, hlen,
      show n + r.length - n = r.length from by omega,
      ← List.drop_append_of_le_length (by omega), List.drop_drop]
    congr 1
    omega

/-- One `add_message` step with a positive cap: the new log is the newest
`max_messages` entries of the appended log, and the cap is unchanged. -/
theorem add_message_step (m : ConversationMemory) (role content : String)
    (hmax : 1 ≤ m.max_messages) :
    (m.add_message role content).messages
      = takeLastL m.max_messages (m.messages ++ [{ role := role, content := content }]) ∧
    (m.add_message role content).max_messages = m.max_messages := by
  unfold ConversationMemory.add_message
  by_cases h : m.max_messages < (m.messages ++ [({ role := role, content := content } : ChatMessage)]).length
  · rw [if_pos h]
    refine ⟨?_, rfl⟩
    show pySliceLast m.max_messages _ = _
    unfold pySliceLast takeLastL
    rw [if_neg (by omega)]
  · rw [if_neg h]
    refine ⟨?_, rfl⟩
    show m.messages ++ [({ role := role, content := content } : ChatMessage)] = _
    rw [takeLastL_of_le (Nat.le_of_not_lt h)]

/-- Folding `add_message` over a call sequence with a positive cap: the
final log is the newest `max_messages` entries of the full history, and the
cap never changes. -/
theorem add_messages_fold (calls : List (String × String)) :
    ∀ m : ConversationMemory, 1 ≤ m.max_messages → m.messages.length ≤ m.max_messages →
      (calls.foldl (fun mem rc => mem.add_message rc.1 rc.2) m).messages
        = takeLastL m.max_messages
            (m.messages ++ calls.map (fun rc => { role := rc.1, content := rc.2 })) ∧
      (calls.foldl (fun mem rc => mem.add_message rc.1 rc.2) m).max_messages
        = m.max_messages := by
  induction calls with
  | nil =>
      intro m h1 h2
      refine ⟨?_, rfl⟩
      rw [List.map_nil, List.append_nil, takeLastL_of_le h2, List.foldl_nil]
  | cons c t ih =>
      intro m h1 h2
      simp only [List.foldl_cons, List.map_cons]
      obtain ⟨hs1, hs2⟩ := add_message_step m c.1 c.2 h1
      have h1' : 1 ≤ (m.add_message c.1 c.2).max_messages := by rw [hs2]; exact h1
      have h2' : (m.add_message c.1 c.2).messages.length
          ≤ (m.add_message c.1 c.2).max_messages := by
        rw [hs1, hs2]; exact takeLastL_length_le _ _
      obtain ⟨ih1, ih2⟩ := ih (m.add_message c.1 c.2) h1' h2'
      refine ⟨?_, by rw [ih2, hs2]⟩
      rw [ih1, hs2, hs1, takeLastL_append_chain, List.append_assoc, List.singleton_append]

/-- Counterexample for C8 as stated: with `max_messages = 0` the Python
slice `messages[-0:]` is the whole list, so one `add_message` call leaves 1
entry — more than `max_messages`. -/
theorem add_message_cap_counterexample :
    ¬ ((({ user_id := "u", max_messages := 0 } : ConversationMemory).add_message
          "user" "hi").messages.length
        ≤ ({ user_id := "u", max_messages := 0 } : ConversationMemory).max_messages) := by
  decide

/-- Claim C8 (amended): for every `ConversationMemory` whose
`max_messages` is at least 1 and which starts with at most `max_messages`
entries (as default construction does), any sequence of `add_message` calls
leaves at most `max_messages` entries, and the log equals the newest
`max_messages` entries of the appended history — eviction always drops from
the front, oldest first. -/
theorem add_message_cap_amended (m : ConversationMemory) (calls : List (String × String))
    (h1 : 1 ≤ m.max_messages) (h2 : m.messages.length ≤ m.max_messages) :
    (calls.foldl (fun mem rc => mem.add_message rc.1 rc.2) m).messages.length
      ≤ m.max_messages ∧
    (calls.foldl (fun mem rc => mem.add_message rc.1 rc.2) m).messages
      = takeLastL m.max_messages
          (m.messages ++ calls.map (fun rc => { role := rc.1, content := rc.2 })) := by
  obtain ⟨ha, hb⟩ := add_messages_fold calls m h1 h2
  exact ⟨ha ▸ takeLastL_length_le _ _, ha⟩

/-- Witness for the amended C8: three calls against a cap of 2 keep exactly
the newest two messages. -/
theorem add_message_cap_amended_witness :
    (([("user", "a"), ("user", "b"), ("user", "c")] : List (String × String)).foldl
        (fun mem rc => mem.add_message rc.1 rc.2)
        ({ user_id := "w8", max_messages := 2 } : ConversationMemory)).messages
      = [{ role := "user", content := "b" }, { role := "user", content := "c" }] := by
  rw [(add_message_cap_amended { user_id := "w8", max_messages := 2 }
    [("user", "a"), ("user", "b"), ("user", "c")] (by decide) (by decide)).2]
  decide

/-! Claims C9 and C10: the memory store. -/

/-- Looking up the key just assigned returns the assigned value. -/
theorem lookup_dictSet_self (s : List (String × ConversationMemory)) (u : String)
    (m : ConversationMemory) : lookupStore (dictSet s u m) u = some m := by
  induction s with
  | nil => simp [dictSet, lookupStore]
  | cons p t ih =>
      obtain ⟨k, v⟩ := p
      by_cases h : k = u
      · simp [dictSet, lookupStore, h]
      · simp [dictSet, lookupStore, h, ih]

/-- Assigning an absent key appends it (dict insertion order). -/
theorem dictSet_absent (s : List (String × ConversationMemory)) (u : String)
    (m : ConversationMemory) (h : lookupStore s u = none) : dictSet s u m = s ++ [(u, m)] := by
  induction s with
  | nil => simp [dictSet]
  | cons p t ih =>
      obtain ⟨k, v⟩ := p
      unfold lookupStore at h
      by_cases hk : k = u
      · rw [if_pos hk] at h; exact absurd h (by simp)
      · rw [if_neg hk] at h
        simp [dictSet, hk, ih h]

/-- Looking up an absent key after appending it finds the appended value. -/
theorem lookup_append_absent (s : List (String × ConversationMemory)) (u : String)
    (m : ConversationMemory) (h : lookupStore s u = none) :
    lookupStore (s ++ [(u, m)]) u = some m := by
  rw [← dictSet_absent s u m h]
  exact lookup_dictSet_self s u m

/-- `get_or_create_memory` on a present user returns the stored memory and
leaves the manager untouched (access does not reorder the store). -/
theorem get_or_create_present {mm : MemoryManager} {u : String} {mem : ConversationMemory}
    (h : lookupStore mm.memory_store u = some mem) :
    mm.get_or_create_memory u = some (mem, mm) := by
  unfold MemoryManager.get_or_create_memory
  rw [h]

/-- `get_or_create_memory` on an absent user under capacity appends a fresh
memory at the end of the store. -/
theorem get_or_create_absent_under {mm : MemoryManager} {u : String}
    (h : lookupStore mm.memory_store u = none)
    (hlt : mm.memory_store.length < mm.max_users) :
    mm.get_or_create_memory u
      = some ({ user_id := u },
          { mm with memory_store := mm.memory_store ++ [(u, { user_id := u })] }) := by
  have h2 : ¬ (mm.max_users ≤ mm.memory_store.length) := by omega
  simp only [MemoryManager.get_or_create_memory, h, if_neg h2]
  rw [dictSet_absent _ _ _ h]

/-- `get_or_create_memory` on an absent user at capacity evicts exactly the
first-inserted entry and appends the fresh memory. -/
theorem get_or_create_absent_at_cap {mm : MemoryManager} {u : String}
    (h : lookupStore mm.memory_store u = none)
    (hcap : mm.max_users ≤ mm.memory_store.length)
    (hne : mm.memory_store ≠ []) :
    mm.get_or_create_memory u
      = some ({ user_id := u },
          { mm with memory_store := mm.memory_store.tail ++ [(u, { user_id := u })] }) := by
  obtain ⟨p, t, hst⟩ := List.exists_cons_of_ne_nil hne
  obtain ⟨k, v⟩ := p
  have htail : lookupStore t u = none := by
    rw [hst] at h
    unfold lookupStore at h
    by_cases hku : k = u
    · rw [if_pos hku] at h; exact absurd h (by simp)
    · rwa [if_neg hku] at h
  simp only [MemoryManager.get_or_create_memory, h, if_pos hcap]
  rw [hst]
  simp only [delKey, eq_self_iff_true, if_true, List.tail_cons]
  rw [dictSet_absent _ _ _ htail]

/-- Claim C9: the memory store never exceeds `max_users` entries under
`get_or_create_memory`; a present user is returned with the store (and its
insertion order) untouched; an absent user under capacity is appended; and
an absent user at exactly `max_users ≥ 1` capacity evicts precisely the
single first-inserted (oldest) entry before appending the new user. -/
theorem memory_store_cap_spec (mm : MemoryManager) (u : String)
    (hinv : mm.memory_store.length ≤ mm.max_users) :
    (∀ mem mm2, mm.get_or_create_memory u = some (mem, mm2) →
      mm2.memory_store.length ≤ mm.max_users ∧ mm2.max_users = mm.max_users) ∧
    (∀ mem, lookupStore mm.memory_store u = some mem →
      mm.get_or_create_memory u = some (mem, mm)) ∧
    (lookupStore mm.memory_store u = none → mm.memory_store.length < mm.max_users →
      mm.get_or_create_memory u
        = some ({ user_id := u },
            { mm with memory_store := mm.memory_store ++ [(u, { user_id := u })] })) ∧
    (lookupStore mm.memory_store u = none → mm.memory_store.length = mm.max_users →
      1 ≤ mm.max_users →
      mm.get_or_create_memory u
        = some ({ user_id := u },
            { mm with memory_store := mm.memory_store.tail ++ [(u, { user_id := u })] })) := by
  refine ⟨?_, fun mem h => get_or_create_present h, fun h hlt => get_or_create_absent_under h hlt,
    ?_⟩
  · intro mem mm2 hsome
    cases hl : lookupStore mm.memory_store u with
    | some m0 =>
        rw [get_or_create_present hl] at hsome
        obtain ⟨rfl, rfl⟩ : m0 = mem ∧ mm = mm2 := by
          simpa using hsome
        exact ⟨hinv, rfl⟩
    | none =>
        rcases Nat.lt_or_ge mm.memory_store.length mm.max_users with hlt | hge
        · rw [get_or_create_absent_under hl hlt] at hsome
          obtain ⟨rfl, rfl⟩ : ({ user_id := u } : ConversationMemory) = mem ∧
              ({ mm with memory_store := mm.memory_store ++ [(u, { user_id := u })] }) = mm2 := by
            simpa using hsome
          constructor
          · simp only [List.length_append, List.length_cons, List.length_nil]
            omega
          · rfl
        · by_cases hnil : mm.memory_store = []
          · exfalso
            have hmz : mm.max_users = 0 := by
              rw [hnil] at hge
              simpa using hge
            simp [MemoryManager.get_or_create_memory, lookupStore, hl, hnil, hmz] at hsome
          · rw [get_or_create_absent_at_cap hl hge hnil] at hsome
            obtain ⟨rfl, rfl⟩ : ({ user_id := u } : ConversationMemory) = mem ∧
                ({ mm with memory_store := mm.memory_store.tail ++ [(u, { user_id := u })] })
                  = mm2 := by
              simpa using hsome
            constructor
            · have hpos : 0 < mm.memory_store.length := List.length_pos.mpr hnil
              have htl : mm.memory_store.tail.length = mm.memory_store.length - 1 :=
                List.length_tail _
              simp only [List.length_append, htl, List.length_cons, List.length_nil]
              omega
            · rfl
  · intro h hcap h1
    have hne : mm.memory_store ≠ [] := by
      intro hnil
      rw [hnil] at hcap
      simp only [List.length_nil] at hcap
      omega
    exact get_or_create_absent_at_cap h (by omega) hne

/-- Witness for C9: a store at its capacity of 2 receiving a third user
evicts exactly the first-inserted user `"a"`. -/
theorem memory_store_cap_spec_witness :
    ({ memory_store := [("a", { user_id := "a" }), ("b", { user_id := "b" })],
       max_users := 2 } : MemoryManager).get_or_create_memory "c"
      = some ({ user_id := "c" },
          { memory_store := [("b", { user_id := "b" }), ("c", { user_id := "c" })],
            max_users := 2 }) := by
  rw [(memory_store_cap_spec
    { memory_store := [("a", { user_id := "a" }), ("b", { user_id := "b" })], max_users := 2 }
    "c" (by decide)).2.2.2 (by decide) (by decide) (by decide)]
  rfl

/-- Claim C10: for a user id absent from the store, `get_memory_stats` and
`get_conversation_context` are not read-only: each creates a fresh empty
`ConversationMemory` entry for that user (appended at the end of the
store), and at `max_users ≥ 1` capacity each additionally evicts the
single oldest-inserted user entry. -/
theorem stats_context_create_evict (mm : MemoryManager) (u : String)
    (habs : lookupStore mm.memory_store u = none) :
    (mm.memory_store.length < mm.max_users →
      mm.get_memory_stats u
        = some ({ user_id := u, message_count := 0, context_keys := [], last_message := none },
            { mm with memory_store := mm.memory_store ++ [(u, { user_id := u })] }) ∧
      mm.get_conversation_context u
        = some ("", { mm with memory_store := mm.memory_store ++ [(u, { user_id := u })] })) ∧
    (mm.memory_store.length = mm.max_users → 1 ≤ mm.max_users →
      mm.get_memory_stats u
        = some ({ user_id := u, message_count := 0, context_keys := [], last_message := none },
            { mm with memory_store := mm.memory_store.tail ++ [(u, { user_id := u })] }) ∧
      mm.get_conversation_context u
        = some ("", { mm with memory_store := mm.memory_store.tail ++ [(u, { user_id := u })] })) := by
  constructor
  · intro hlt
    constructor
    · unfold MemoryManager.get_memory_stats
      rw [get_or_create_absent_under habs hlt]
      rfl
    · unfold MemoryManager.get_conversation_context
      rw [get_or_create_absent_under habs hlt]
      rfl
  · intro hcap h1
    have hne : mm.memory_store ≠ [] := by
      intro hnil
      rw [hnil] at hcap
      simp at hcap
      omega
    constructor
    · unfold MemoryManager.get_memory_stats
      rw [get_or_create_absent_at_cap habs (by omega) hne]
      rfl
    · unfold MemoryManager.get_conversation_context
      rw [get_or_create_absent_at_cap habs (by omega) hne]
      rfl

/-- Witness for C10: reading stats for an unknown user at a capacity of 1
evicts the oldest user and stores the new one. -/
theorem stats_context_create_evict_witness :
    ({ memory_store := [("a", { user_id := "a" })], max_users := 1 } : MemoryManager).get_memory_stats "b"
      = some ({ user_id := "b", message_count := 0, context_keys := [], last_message := none },
          { memory_store := [("b", { user_id := "b" })], max_users := 1 }) := by
  rw [((stats_context_create_evict
    { memory_store := [("a", { user_id := "a" })], max_users := 1 } "b" (by decide)).2
    (by decide) (by decide)).1]
  rfl

/-! Claims C2, C3, C4 and C7: the orchestrator pipeline. -/

/-- The fixed `agent_name` each domain agent reports on success. -/
def agentNameOf : AgentId → String
  | .symptom => "Symptom Assessment"
  | .lifestyle => "Lifestyle Coach"
  | .diet => "Nutrition Guide"
  | .fitness => "Fitness Coach"

/-- The agent responses a dispatch produces: the generators mapped from the
resolved intent, called in invocation order, successes kept in order. -/
def dispatchedOf (env : AgentEnv) (mm : MemoryManager) (q : WellnessQuery) :
    List AgentResponse :=
  ((claimTasks (identify_intent q.query)).map
    (fun a => env a q.query (peekContext mm q.user_id))).filterMap successResponse

/-- `get_or_create_memory` is total on a manager with positive capacity, and
returns the stored (or fresh) memory, preserving `max_users` and leaving the
user present. -/
theorem get_or_create_eq (mm : MemoryManager) (u : String) (hcap : 1 ≤ mm.max_users) :
    ∃ mm2, mm.get_or_create_memory u = some (peekMemory mm u, mm2) ∧
      mm2.max_users = mm.max_users ∧
      lookupStore mm2.memory_store u = some (peekMemory mm u) := by
  cases hl : lookupStore mm.memory_store u with
  | some mem =>
      refine ⟨mm, ?_, rfl, ?_⟩
      · rw [get_or_create_present hl]
        simp [peekMemory, hl]
      · simp [peekMemory, hl]
  | none =>
      have hpeek : peekMemory mm u = { user_id := u } := by simp [peekMemory, hl]
      rcases Nat.lt_or_ge mm.memory_store.length mm.max_users with hlt | hge
      · refine ⟨{ mm with memory_store := mm.memory_store ++ [(u, { user_id := u })] },
          ?_, rfl, ?_⟩
        · rw [get_or_create_absent_under hl hlt, hpeek]
        · rw [hpeek]
          exact lookup_append_absent _ _ _ hl
      · have hne : mm.memory_store ≠ [] := by
          intro hnil
          rw [hnil] at hge
          simp only [List.length_nil] at hge
          omega
        have htail : lookupStore mm.memory_store.tail u = none := by
          obtain ⟨p, t, hst⟩ := List.exists_cons_of_ne_nil hne
          obtain ⟨k, v⟩ := p
          rw [hst] at hl ⊢
          rw [List.tail_cons]
          unfold lookupStore at hl
          by_cases hku : k = u
          · rw [if_pos hku] at hl
            exact absurd hl (by simp)
          · rwa [if_neg hku] at hl
        refine ⟨{ mm with memory_store := mm.memory_store.tail ++ [(u, { user_id := u })] },
          ?_, rfl, ?_⟩
        · rw [get_or_create_absent_at_cap hl hge hne, hpeek]
        · rw [hpeek]
          exact lookup_append_absent _ _ _ htail

/-- `get_conversation_context` is total on a manager with positive capacity
and returns the present (or fresh) memory's context. -/
theorem get_context_eq (mm : MemoryManager) (u : String) (hcap : 1 ≤ mm.max_users) :
    ∃ mm2, mm.get_conversation_context u = some (peekContext mm u, mm2) ∧
      mm2.max_users = mm.max_users ∧
      lookupStore mm2.memory_store u = some (peekMemory mm u) := by
  obtain ⟨mm2, h1, h2, h3⟩ := get_or_create_eq mm u hcap
  refine ⟨mm2, ?_, h2, h3⟩
  unfold MemoryManager.get_conversation_context
  rw [h1]
  rfl

/-- `add_user_message` on a present user always succeeds, updating that
user's entry in place. -/
theorem add_user_message_present {mm : MemoryManager} {u : String} {mem : ConversationMemory}
    (h : lookupStore mm.memory_store u = some mem) (msg : String) :
    mm.add_user_message u msg
      = some { mm with
               memory_store := dictSet mm.memory_store u (mem.add_message "user" msg) } := by
  unfold MemoryManager.add_user_message
  rw [get_or_create_present h]

/-- The dispatch core: on a manager with positive capacity,
`execute_agent_query` resolves the intent (caller-supplied one kept as-is),
invokes exactly the generators `claimTasks` maps that intent to — in
invocation order, each on the query and the user's context — and returns
the successful results in that order, failures omitted. -/
theorem execute_eq (env : AgentEnv) (mm : MemoryManager) (q : WellnessQuery)
    (hcap : 1 ≤ mm.max_users) :
    ∃ mm2, execute_agent_query env mm q
      = some (((claimTasks (resolvedIntent q)).map
            (fun a => env a q.query (peekContext mm q.user_id))).filterMap successResponse,
          mm2, resolvedIntent q) := by
  obtain ⟨mm1, h1, h2, h3⟩ := get_context_eq mm q.user_id hcap
  have hadd := add_user_message_present h3 q.query
  refine ⟨{ mm1 with
    memory_store := dictSet mm1.memory_store q.user_id
      ((peekMemory mm q.user_id).add_message "user" q.query) }, ?_⟩
  unfold execute_agent_query
  rw [h1]
  dsimp only
  rw [hadd]
  dsimp only
  generalize resolvedIntent q = it
  cases it <;> rfl

/-- The safe path of `process_wellness_query`: classify, dispatch, and
return the agent responses with their count — and nothing else. -/
theorem process_safe_eq (env : AgentEnv) (mm : MemoryManager) (q : WellnessQuery)
    (hcap : 1 ≤ mm.max_users)
    (hsafe : (filter_intent_safety (identify_intent q.query) q.query).1 = true) :
    ∃ mm2, process_wellness_query env mm q
      = some ({ user_id := q.user_id, query := q.query,
                intent := intentValue (identify_intent q.query),
                agent_responses := dispatchedOf env mm q,
                agent_count := some (dispatchedOf env mm q).length }, mm2) := by
  obtain ⟨mm2, hexec⟩ :=
    execute_eq env mm { q with intent := some (identify_intent q.query) } hcap
  refine ⟨mm2, ?_⟩
  unfold process_wellness_query
  dsimp only
  rw [hsafe, if_neg (by simp), hexec]
  rfl

/-- An awaited call that did not settle as a success dict contributes
nothing. -/
theorem successResponse_eq_none {r : AgentCallResult} (h : agentSuccess r = false) :
    successResponse r = none := by
  cases r with
  | dict s n conf c recs =>
      cases s
      · rfl
      · exact absurd h (by simp [agentSuccess])
  | exc => rfl

/-- A concrete environment in which every agent call succeeds with its
fixed name. -/
def envOkC : AgentEnv := fun a _ _ => .dict true (agentNameOf a) 1 "ok" ["hydrate"]

/-- A concrete environment in which every agent call fails. -/
def envFailC : AgentEnv := fun _ _ _ => .exc

/-- A concrete environment in which exactly the lifestyle agent fails. -/
def envW7 : AgentEnv := fun a _ _ =>
  match a with
  | .lifestyle => .exc
  | _ => .dict true (agentNameOf a) 1 "ok" []

/-! Claim C7. -/

/-- Claim C7: a dispatch invokes exactly the one generator mapped to a
specific intent and all four (symptom, lifestyle, diet, fitness, in that
order) for `general` — `claimTasks` lists them per intent — and the
returned responses are the successful calls in invocation order, failures
omitted without affecting the others (the `filterMap` over the invocation
list). -/
theorem dispatch_agents_spec (env : AgentEnv) (mm : MemoryManager) (q : WellnessQuery)
    (hcap : 1 ≤ mm.max_users) :
    (execute_agent_query env mm q).map (fun r => (r.1, r.2.2))
      = some (((claimTasks (resolvedIntent q)).map
            (fun a => env a q.query (peekContext mm q.user_id))).filterMap successResponse,
          resolvedIntent q) ∧
    claimTasks IntentType.symptom = [AgentId.symptom] ∧
    claimTasks IntentType.lifestyle = [AgentId.lifestyle] ∧
    claimTasks IntentType.diet = [AgentId.diet] ∧
    claimTasks IntentType.fitness = [AgentId.fitness] ∧
    claimTasks IntentType.general
      = [AgentId.symptom, AgentId.lifestyle, AgentId.diet, AgentId.fitness] := by
  obtain ⟨mm2, h⟩ := execute_eq env mm q hcap
  exact ⟨by rw [h]; rfl, rfl, rfl, rfl, rfl, rfl⟩

/-- Witness for C7: a `general` query against a fresh store dispatches all
four agents; the failed lifestyle call is omitted from the results without
affecting the other three. -/
theorem dispatch_agents_spec_witness :
    (execute_agent_query envW7 initManager { user_id := "u7", query := "hello" }).map
        (fun r => (r.1, r.2.2))
      = some (((claimTasks (resolvedIntent { user_id := "u7", query := "hello" })).map
            (fun a => envW7 a "hello" (peekContext initManager "u7"))).filterMap
              successResponse,
          resolvedIntent { user_id := "u7", query := "hello" }) :=
  (dispatch_agents_spec envW7 initManager { user_id := "u7", query := "hello" } (by decide)).1

/-! Claim C2. -/

/-- Counterexample for C2 as stated: a safe request (`"I feel tired"`, all
agents succeeding) produces an orchestrator result whose
`synthesized_guidance` and `primary_recommendations` keys are absent
(and whose shape has no disclaimer key at all): `process_wellness_query`
returns the agent responses and their count without ever running the
Response Synthesizer. -/
theorem orch_no_synthesis_counterexample :
    (process_wellness_query envOkC initManager { user_id := "u1", query := "I feel tired" }).map
        (fun r => (r.1.synthesized_guidance, r.1.primary_recommendations, r.1.agent_count))
      = some (none, none, some 1) := by
  decide

/-- Claim C2 (amended): on every safe path the orchestrator returns only
the agent responses and `agent_count`; its result carries no
`synthesized_guidance`, no `primary_recommendations` and no disclaimer —
the Response Synthesizer is never invoked by the orchestrator.  The
synthesizer itself (`synthesize_responses`, reachable only by calling it
directly) does return a `synthesized_guidance` document, a
`primary_recommendations` list and the fixed constant disclaimer string. -/
theorem orch_safe_path_shape (env : AgentEnv) (mm : MemoryManager) (q : WellnessQuery)
    (fill : String → String) (uid qq : String) (it : IntentType) (rs : List AgentResponse)
    (hcap : 1 ≤ mm.max_users)
    (hsafe : (filter_intent_safety (identify_intent q.query) q.query).1 = true) :
    (process_wellness_query env mm q).map
        (fun r => (r.1.synthesized_guidance, r.1.primary_recommendations,
          r.1.requires_emergency)) = some (none, none, none) ∧
    (∀ res mm2, process_wellness_query env mm q = some (res, mm2) →
      res.agent_count = some res.agent_responses.length) ∧
    (synthesize_responses fill uid qq it rs).disclaimer
      = "This is educational wellness guidance, not medical advice. Consult healthcare professionals for medical concerns." := by
  obtain ⟨mm2, h⟩ := process_safe_eq env mm q hcap hsafe
  refine ⟨by rw [h]; rfl, ?_, rfl⟩
  intro res mm2' hres
  rw [h] at hres
  simp only [Option.some.injEq, Prod.mk.injEq] at hres
  obtain ⟨h1, h2⟩ := hres
  rw [← h1]

/-- Witness for the amended C2 at a concrete safe request. -/
theorem orch_safe_path_shape_witness :
    (process_wellness_query envOkC initManager { user_id := "u1", query := "I feel tired" }).map
        (fun r => (r.1.synthesized_guidance, r.1.primary_recommendations,
          r.1.requires_emergency)) = some (none, none, none) :=
  (orch_safe_path_shape envOkC initManager { user_id := "u1", query := "I feel tired" }
    id "u" "q" IntentType.general [] (by decide) (by decide)).1

/-! Claim C3. -/

/-- Counterexample for C3 as stated: with every agent call failing, the
orchestrator still returns a normal success result — empty
`agent_responses`, `agent_count = 0`, no emergency flag, no error: no
`AllGeneratorsFailedError` (or any equivalent) exists in the code. -/
theorem all_failures_counterexample :
    (process_wellness_query envFailC initManager { user_id := "u1", query := "hello" }).map
        (fun r => (r.1.agent_responses, r.1.agent_count, r.1.requires_emergency))
      = some ([], some 0, none) := by
  decide

/-- Claim C3 (amended): whenever every dispatched generator call fails on a
safe request, the orchestrator returns a normal success result with an
empty `agent_responses` list and `agent_count = 0`; no processing failure
is surfaced to the caller. -/
theorem all_failures_amended (env : AgentEnv) (mm : MemoryManager) (q : WellnessQuery)
    (hcap : 1 ≤ mm.max_users)
    (hsafe : (filter_intent_safety (identify_intent q.query) q.query).1 = true)
    (henv : ∀ a s c, agentSuccess (env a s c) = false) :
    (process_wellness_query env mm q).map
        (fun r => (r.1.agent_responses, r.1.agent_count, r.1.requires_emergency))
      = some ([], some 0, none) := by
  obtain ⟨mm2, h⟩ := process_safe_eq env mm q hcap hsafe
  have hnil : dispatchedOf env mm q = [] := by
    apply List.filterMap_eq_nil_iff.mpr
    intro x hx
    obtain ⟨a, _, rfl⟩ := List.mem_map.mp hx
    exact successResponse_eq_none (henv a q.query (peekContext mm q.user_id))
  rw [h, hnil]
  rfl

/-- Witness for the amended C3 at a concrete all-fail dispatch. -/
theorem all_failures_amended_witness :
    (process_wellness_query envFailC initManager { user_id := "u2", query := "how are you" }).map
        (fun r => (r.1.agent_responses, r.1.agent_count, r.1.requires_emergency))
      = some ([], some 0, none) :=
  all_failures_amended envFailC initManager { user_id := "u2", query := "how are you" }
    (by decide) (by decide) (fun a s c => rfl)

/-! Claim C4. -/

/-- Counterexample for C4 as stated: a query arriving with the
caller-supplied intent `fitness` but text `"food"` is processed by
`process_wellness_query` under the classified intent `diet`: the
caller-supplied intent is overwritten before dispatch, and only the
nutrition agent runs. -/
theorem caller_intent_overwritten_counterexample :
    (process_wellness_query envOkC initManager
        { user_id := "u1", query := "food", intent := some IntentType.fitness }).map
        (fun r => (r.1.intent, r.1.agent_responses.map (fun resp => resp.agent_name)))
      = some ("diet", ["Nutrition Guide"]) := by
  decide

/-- Claim C4 (amended): `execute_agent_query` does honor a caller-supplied
intent as-is (the classifier is bypassed), but `process_wellness_query`
unconditionally reclassifies the query text and overwrites any
caller-supplied intent — its outcome is independent of the `intent` field
of the incoming query. -/
theorem caller_intent_amended (env : AgentEnv) (mm : MemoryManager) (q : WellnessQuery)
    (i : IntentType) (j : Option IntentType) (hcap : 1 ≤ mm.max_users)
    (hint : q.intent = some i) :
    (execute_agent_query env mm q).map (fun r => r.2.2) = some i ∧
    process_wellness_query env mm { q with intent := j }
      = process_wellness_query env mm { q with intent := none } := by
  constructor
  · obtain ⟨mm2, h⟩ := execute_eq env mm q hcap
    rw [h]
    simp [resolvedIntent, hint]
  · rfl

/-- Witness for the amended C4: a direct dispatch with caller-supplied
intent `fitness` on the text `"food"` runs under `fitness` (classification
bypassed). -/
theorem caller_intent_amended_witness :
    (execute_agent_query envOkC initManager
        { user_id := "u9", query := "food", intent := some IntentType.fitness }).map
        (fun r => r.2.2) = some IntentType.fitness :=
  (caller_intent_amended envOkC initManager
    { user_id := "u9", query := "food", intent := some IntentType.fitness }
    IntentType.fitness none (by decide) rfl).1

/-! Claim C1. -/

/-- Claim C1: for every request whose raw query text contains one of the
handler's critical-symptom/emergency phrases (as a substring of the
lowercased text), the top-level handler's emergency pre-check fires before
intent detection and regardless of the intent the text would classify as:
the response is exactly the fixed emergency response, with
`requires_emergency = true` and an empty `agent_responses` list. -/
theorem emergency_precheck_fires (request : QueryRequest)
    (h : emergency_keywords.any (fun kw => containsSubstr (strLower request.query) kw) = true) :
    wellness_query request =
      { user_id := request.user_id,
        query := request.query,
        intent := "emergency",
        agent_responses := [],
        synthesized_guidance := "🚨 CRITICAL: Seek emergency medical help immediately (911)",
        primary_recommendations := [],
        agent_count := 0,
        warning := some "EMERGENCY REQUIRED",
        requires_emergency := true } := by
  simp [wellness_query, h]

/-- Witness for C1 at a concrete emergency query (the text would classify
as `symptom`, but the pre-check answers first). -/
theorem emergency_precheck_fires_witness :
    wellness_query { user_id := "u1", query := "I have chest pain" } =
      { user_id := "u1",
        query := "I have chest pain",
        intent := "emergency",
        agent_responses := [],
        synthesized_guidance := "🚨 CRITICAL: Seek emergency medical help immediately (911)",
        primary_recommendations := [],
        agent_count := 0,
        warning := some "EMERGENCY REQUIRED",
        requires_emergency := true } :=
  emergency_precheck_fires { user_id := "u1", query := "I have chest pain" } (by decide)
